import Mathlib

/-!
Shallow embedding of the 2D Transmission Line Geometry Designer
(`src/webui/geometry.js`) and proofs about it.

The view-transform state and the canvas layout engine are embedded over ℚ
(the JavaScript arithmetic on these paths is field arithmetic on finite
decimal constants), and the analytic parameter estimator, which uses
`Math.log`, `Math.sqrt`, `Math.pow` and `Math.PI`, is embedded over ℝ.
-/

namespace TLGeometry

/-! ## View transform state (zoom and pan)

Mirrors the fields `zoomLevel`, `panX`, `panY` of `TransmissionLineGeometry`
and the methods `handleWheel`, `zoomIn`, `zoomOut`, `resetZoom`,
`handleMouseMove` (the drag-pan path). -/

structure ViewState where
  zoomLevel : ℚ
  panX : ℚ
  panY : ℚ
deriving DecidableEq, Repr

/-- Constructor default: `this.zoomLevel = 1.0; this.panX = 0; this.panY = 0`. -/
def initView : ViewState := ⟨1, 0, 0⟩

/-- Constructor constant `this.minZoom = 0.1`. -/
def minZoom : ℚ := 0.1

/-- Constructor constant `this.maxZoom = 10`. -/
def maxZoom : ℚ := 10

/-- The `handleWheel` zoom factor: `e.deltaY < 0 ? 1.1 : 0.9`. -/
def wheelFactor (deltaY : ℚ) : ℚ := if deltaY < 0 then 1.1 else 0.9

/-- Method `handleWheel(e)`: zoom factor is 1.1 for wheel-up (`deltaY < 0`)
and 0.9 otherwise; the new zoom is clamped to `[minZoom, maxZoom]`, and the
pan offset is recomputed so that the zoom is anchored at the mouse position. -/
def handleWheel (s : ViewState) (mouseX mouseY deltaY : ℚ) : ViewState :=
  let newZoom := max minZoom (min maxZoom (s.zoomLevel * wheelFactor deltaY))
  let r := newZoom / s.zoomLevel
  { zoomLevel := newZoom
    panX := mouseX - (mouseX - s.panX) * r
    panY := mouseY - (mouseY - s.panY) * r }

/-- Method `zoomIn()`: factor 1.2, clamped above by `maxZoom`, anchored at the
canvas center `(canvasW/2, canvasH/2)`. -/
def zoomIn (canvasW canvasH : ℚ) (s : ViewState) : ViewState :=
  let newZoom := min maxZoom (s.zoomLevel * 1.2)
  let centerX := canvasW / 2
  let centerY := canvasH / 2
  let r := newZoom / s.zoomLevel
  { zoomLevel := newZoom
    panX := centerX - (centerX - s.panX) * r
    panY := centerY - (centerY - s.panY) * r }

/-- Method `zoomOut()`: factor 1/1.2, clamped below by `minZoom`, anchored at
the canvas center. -/
def zoomOut (canvasW canvasH : ℚ) (s : ViewState) : ViewState :=
  let newZoom := max minZoom (s.zoomLevel / 1.2)
  let centerX := canvasW / 2
  let centerY := canvasH / 2
  let r := newZoom / s.zoomLevel
  { zoomLevel := newZoom
    panX := centerX - (centerX - s.panX) * r
    panY := centerY - (centerY - s.panY) * r }

/-- Method `resetZoom()`: restores the fixed defaults. -/
def resetZoom (_s : ViewState) : ViewState := ⟨1, 0, 0⟩

/-- The pan update performed by `handleMouseMove` while `isPanning`:
`panX += deltaX; panY += deltaY`. -/
def dragPan (s : ViewState) (deltaX deltaY : ℚ) : ViewState :=
  { s with panX := s.panX + deltaX, panY := s.panY + deltaY }

/-- The interactions that mutate the view state. -/
inductive Op where
  | wheel (mouseX mouseY deltaY : ℚ)
  | zin
  | zout
  | reset
  | drag (deltaX deltaY : ℚ)
deriving DecidableEq, Repr

/-- One interaction step on the view state (canvas size fixed). -/
def step (canvasW canvasH : ℚ) (op : Op) (s : ViewState) : ViewState :=
  match op with
  | .wheel mx my dy => handleWheel s mx my dy
  | .zin => zoomIn canvasW canvasH s
  | .zout => zoomOut canvasW canvasH s
  | .reset => resetZoom s
  | .drag dx dy => dragPan s dx dy

/-- A finite sequence of interactions applied in order. -/
def applyOps (canvasW canvasH : ℚ) (ops : List Op) (s : ViewState) : ViewState :=
  ops.foldl (fun t op => step canvasW canvasH op t) s

/-- The forward view mapping used by the renderer
(`ctx.translate(panX, panY); ctx.scale(zoomLevel, zoomLevel)`), one
coordinate at a time: a model coordinate `p` lands on surface coordinate
`pan + zoomLevel * p`. -/
def surfaceOfModel (zoom pan p : ℚ) : ℚ := pan + zoom * p

/-! ## Layout engine

Mirrors `drawGeometry` and `drawTrace`: every `fillRect`/`arc` call becomes
one emitted `Region`, in draw order. Canvas y grows downward; all quantities
are in canvas pixels (`scale = 0.5` pixels per micrometer, `offsetY = 50`). -/

/-- The role of a drawn region, read off the code comments and fill colors. -/
inductive Role where
  | substrate
  | air
  | signal
  | sideGround
  | topGround
  | bottomGround
  | via
deriving DecidableEq, Repr

/-- One emitted layout primitive: an axis-aligned rectangle
(`fillRect(x, y, w, h)`) or a circle (`arc(cx, cy, r, 0, 2π)`). -/
inductive Region where
  | rect (role : Role) (x y w h : ℚ)
  | circle (role : Role) (cx cy r : ℚ)
deriving DecidableEq, Repr

/-- The role of a region. -/
def Region.role : Region → Role
  | .rect ρ _ _ _ _ => ρ
  | .circle ρ _ _ _ => ρ

/-- Left edge of a region (for a circle, the leftmost point). -/
def Region.leftEdge : Region → ℚ
  | .rect _ x _ _ _ => x
  | .circle _ cx _ r => cx - r

/-- Horizontal width of a region. -/
def Region.width : Region → ℚ
  | .rect _ _ _ w _ => w
  | .circle _ _ _ r => 2 * r

/-- Constructor constant `this.scale = 0.5` (pixels per micrometer). -/
def scale : ℚ := 0.5

/-- Constructor constant `this.offsetY = 50`. -/
def offsetY : ℚ := 50

/-- The `drawTrace` constant `viaRadius = 3`. -/
def viaRadius : ℚ := 3

/-- The `drawTrace` constant `viaSpacing = 40`. -/
def viaSpacing : ℚ := 40

/-- The via for-loop of the grounded-coplanar branch of `drawTrace`:
`for (let y = start; y <= stop; y += viaSpacing)` with body guarded by
`if (y + viaRadius <= stop)`, returning the y-centers of the placed vias. -/
def viaLoop (y stop : ℚ) : List ℚ :=
  if y ≤ stop then
    (if y + viaRadius ≤ stop then [y] else []) ++ viaLoop (y + viaSpacing) stop
  else []
termination_by (⌈stop - y⌉ + 40).toNat
decreasing_by
  rename_i hy
  have hceil : ⌈stop - (y + viaSpacing)⌉ = ⌈stop - y⌉ - 40 := by
    rw [show stop - (y + viaSpacing) = stop - y - (40 : ℤ) by
      simp [viaSpacing]; ring]
    exact Int.ceil_sub_int _ _
  have hnn : (0 : ℤ) ≤ ⌈stop - y⌉ := Int.ceil_nonneg (by linarith)
  omega

/-- The geometry inputs read by `getGeometryParams` that affect layout,
in micrometers. -/
structure GeoDims where
  traceWidth : ℚ
  traceHeight : ℚ
  groundThickness : ℚ
  coplanarGap : ℚ
  substrateHeight : ℚ
  substrateWidth : ℚ
  airHeight : ℚ
deriving DecidableEq, Repr

/-- Method `drawTrace(lineType, traceX, traceY, traceWidth, traceHeight,
substrateX, substrateY, substrateWidth, substrateHeight, groundThickness,
coplanarGap)`: the switch on `lineType`, each `fillRect`/`arc` emitted in
order. A `lineType` matching no case (there is no `default`) draws nothing. -/
def drawTrace (lineType : String) (traceX traceY traceWidth traceHeight
    substrateX substrateY substrateWidth substrateHeight
    groundThickness coplanarGap : ℚ) : List Region :=
  let groundWidth : ℚ := 50
  if lineType = "microstrip" then
    [.rect .signal traceX traceY traceWidth traceHeight,
     .rect .bottomGround substrateX (substrateY + substrateHeight) substrateWidth groundThickness]
  else if lineType = "stripline" then
    let embeddedTraceY := substrateY + substrateHeight / 2 - traceHeight / 2
    [.rect .topGround substrateX (substrateY - 20) substrateWidth 15,
     .rect .bottomGround substrateX (substrateY + substrateHeight + 5) substrateWidth 15,
     .rect .signal traceX embeddedTraceY traceWidth traceHeight]
  else if lineType = "coplanar" then
    [.rect .signal traceX traceY traceWidth traceHeight,
     .rect .sideGround (traceX - coplanarGap - groundWidth) traceY groundWidth traceHeight,
     .rect .sideGround (traceX + traceWidth + coplanarGap) traceY groundWidth traceHeight]
  else if lineType = "coplanar-with-ground" then
    [.rect .signal traceX traceY traceWidth traceHeight,
     .rect .sideGround (traceX - coplanarGap - groundWidth) traceY groundWidth traceHeight,
     .rect .sideGround (traceX + traceWidth + coplanarGap) traceY groundWidth traceHeight,
     .rect .bottomGround substrateX (substrateY + substrateHeight) substrateWidth groundThickness]
  else if lineType = "grounded-coplanar" then
    let viaYs := viaLoop (traceY + traceHeight) (substrateY + substrateHeight)
    [.rect .signal traceX traceY traceWidth traceHeight,
     .rect .sideGround (traceX - coplanarGap - groundWidth) traceY groundWidth traceHeight,
     .rect .sideGround (traceX + traceWidth + coplanarGap) traceY groundWidth traceHeight,
     .rect .bottomGround substrateX (substrateY + substrateHeight) substrateWidth groundThickness]
    ++ viaYs.map (fun y => .circle .via (traceX - coplanarGap - groundWidth / 2) y viaRadius)
    ++ viaYs.map (fun y => .circle .via (traceX + traceWidth + coplanarGap + groundWidth / 2) y viaRadius)
  else if lineType = "custom" then
    [.rect .signal traceX traceY traceWidth traceHeight]
  else []

/-- Method `drawGeometry()`: converts dimensions to pixels, computes the
shared positions, emits the substrate and air regions, then the
topology-specific regions via `drawTrace`, in draw order. -/
def drawGeometry (lineType : String) (d : GeoDims) (canvasW canvasH : ℚ) : List Region :=
  let traceWidth := d.traceWidth * scale
  let traceHeight := d.traceHeight * scale
  let substrateWidth := d.substrateWidth * scale
  let substrateHeight := d.substrateHeight * scale
  let airHeight := d.airHeight * scale
  let canvasCenterX := canvasW / 2
  let substrateY := canvasH - offsetY - substrateHeight
  let substrateX := canvasCenterX - substrateWidth / 2
  let traceX := canvasCenterX - traceWidth / 2
  let traceY := substrateY - traceHeight
  let geometryTopY := if lineType = "stripline" then substrateY - 20 else traceY
  let airBoxY := geometryTopY - airHeight
  [.rect .substrate substrateX substrateY substrateWidth substrateHeight,
   .rect .air substrateX airBoxY substrateWidth airHeight]
  ++ drawTrace lineType traceX traceY traceWidth traceHeight
       substrateX substrateY substrateWidth substrateHeight
       (d.groundThickness * scale) (d.coplanarGap * scale)

/-! ## Analytic parameter estimator

Mirrors `updateEstimatedParams()` over ℝ: `Math.log` is `Real.log`,
`Math.sqrt` is `Real.sqrt`, `Math.PI` is `Real.pi`, `Math.pow` is `Real.rpow`. -/

/-- The full parameter record read by `getGeometryParams` (the estimator
reads `traceWidth`, `substrateHeight`, `substrateEr`). -/
structure GeoParams where
  traceWidth : ℝ
  traceHeight : ℝ
  groundThickness : ℝ
  coplanarGap : ℝ
  substrateHeight : ℝ
  substrateWidth : ℝ
  airHeight : ℝ
  substrateEr : ℝ
  substrateLoss : ℝ
  conductorSigma : ℝ

/-- Method `updateEstimatedParams()`: the if/else chain on `lineType`
producing `(z0, effEr)`. Any `lineType` not equal to one of the five tested
strings (including `"custom"`) takes the final else branch. -/
noncomputable def updateEstimatedParams (lineType : String) (p : GeoParams) : ℝ × ℝ :=
  if lineType = "microstrip" then
    let w_h := p.traceWidth / p.substrateHeight
    let er := p.substrateEr
    let z0 := if w_h ≤ 1 then
        (60 / Real.sqrt er) * Real.log (8 / w_h + w_h / 4)
      else
        (120 * Real.pi) / (Real.sqrt er * (w_h + 1.393 + 0.667 * Real.log (w_h + 1.444)))
    let effEr := (er + 1) / 2 + ((er - 1) / 2) * (1 + 12 / w_h) ^ (-(0.5 : ℝ))
    (z0, effEr)
  else if lineType = "stripline" then
    let w_h := p.traceWidth / p.substrateHeight
    let er := p.substrateEr
    let z0 := if w_h ≤ 0.35 then
        (60 / Real.sqrt er) * Real.log (4 / w_h)
      else
        (94.15 / Real.sqrt er) / (w_h + 2.7)
    (z0, er)
  else if lineType = "coplanar" then
    (50, (p.substrateEr + 1) / 2)
  else if lineType = "coplanar-with-ground" then
    (45, (p.substrateEr + 1) / 2 + 0.1)
  else if lineType = "grounded-coplanar" then
    (40, (p.substrateEr + 1) / 2 + 0.2)
  else
    (50, p.substrateEr)

/-! ## Helper lemmas for the via loop -/

lemma viaLoop_sound (y stop : ℚ) :
    ∀ c ∈ viaLoop y stop,
      (∃ k : ℕ, c = y + viaSpacing * k) ∧ c + viaRadius ≤ stop := by
  induction y, stop using viaLoop.induct with
  | case1 y stop hle ih =>
      intro c hc
      rw [viaLoop, if_pos hle] at hc
      rcases List.mem_append.mp hc with h | h
      · split at h
        · rename_i hfit
          rw [List.mem_singleton] at h
          subst h
          exact ⟨⟨0, by norm_num⟩, hfit⟩
        · simp at h
      · obtain ⟨⟨k, hk⟩, hband⟩ := ih c h
        refine ⟨⟨k + 1, ?_⟩, hband⟩
        rw [hk]
        push_cast
        ring
  | case2 y stop hnle =>
      intro c hc
      rw [viaLoop, if_neg hnle] at hc
      simp at hc

lemma viaLoop_complete (y stop : ℚ) :
    ∀ k : ℕ, y + viaSpacing * k + viaRadius ≤ stop →
      (y + viaSpacing * k) ∈ viaLoop y stop := by
  induction y, stop using viaLoop.induct with
  | case1 y stop hle ih =>
      intro k hk
      rw [viaLoop, if_pos hle]
      refine List.mem_append.mpr ?_
      match k with
      | 0 =>
          left
          rw [if_pos (by simpa using hk)]
          simp
      | k + 1 =>
          right
          have := ih k (by push_cast at hk ⊢; linarith)
          simpa [mul_add, add_assoc, add_comm, add_left_comm, mul_comm] using this
  | case2 y stop hnle =>
      intro k hk
      exfalso
      have hk0 : (0 : ℚ) ≤ viaSpacing * k := by
        have : (0 : ℚ) ≤ (k : ℚ) := Nat.cast_nonneg k
        rw [viaSpacing]
        positivity
      rw [viaRadius] at hk
      exact hnle (by linarith)

/-! ## Helper lemmas for the view transform -/

lemma handleWheel_zoomLevel (s : ViewState) (mx my dy : ℚ) :
    (handleWheel s mx my dy).zoomLevel
      = max minZoom (min maxZoom (s.zoomLevel * wheelFactor dy)) := rfl

lemma handleWheel_panX (s : ViewState) (mx my dy : ℚ) :
    (handleWheel s mx my dy).panX
      = mx - (mx - s.panX) * ((handleWheel s mx my dy).zoomLevel / s.zoomLevel) := rfl

lemma handleWheel_panY (s : ViewState) (mx my dy : ℚ) :
    (handleWheel s mx my dy).panY
      = my - (my - s.panY) * ((handleWheel s mx my dy).zoomLevel / s.zoomLevel) := rfl

lemma zoomIn_zoomLevel (cw ch : ℚ) (s : ViewState) :
    (zoomIn cw ch s).zoomLevel = min maxZoom (s.zoomLevel * 1.2) := rfl

lemma zoomOut_zoomLevel (cw ch : ℚ) (s : ViewState) :
    (zoomOut cw ch s).zoomLevel = max minZoom (s.zoomLevel / 1.2) := rfl

/-! ## Theorems -/

/-- C9. After any finite sequence of zoom and pan interactions, the view
reset operation sets `zoomLevel` to exactly 1.0 and the pan offset to
exactly (0, 0) — the fixed defaults, not the last-used values. -/
theorem resetZoom_restores_defaults (canvasW canvasH : ℚ) (ops : List Op) (s : ViewState) :
    step canvasW canvasH .reset (applyOps canvasW canvasH ops s) = ⟨1, 0, 0⟩ := rfl

/-- C8. Starting from a `zoomLevel` in `[minZoom, maxZoom] = [0.1, 10]`,
every interaction (wheel zoom, zoomIn, zoomOut, reset, drag-pan) leaves
`zoomLevel` in range, and a wheel-requested zoom outside the range is
clamped to the nearest bound (no operation can fail). -/
theorem zoomLevel_bounded (canvasW canvasH : ℚ) (s : ViewState) (op : Op)
    (h1 : minZoom ≤ s.zoomLevel) (h2 : s.zoomLevel ≤ maxZoom) :
    (minZoom ≤ (step canvasW canvasH op s).zoomLevel ∧
      (step canvasW canvasH op s).zoomLevel ≤ maxZoom) ∧
    (∀ mx my dy,
      (maxZoom < s.zoomLevel * wheelFactor dy →
        (handleWheel s mx my dy).zoomLevel = maxZoom) ∧
      (s.zoomLevel * wheelFactor dy < minZoom →
        (handleWheel s mx my dy).zoomLevel = minZoom)) := by
  have hmm : minZoom ≤ maxZoom := by norm_num [minZoom, maxZoom]
  constructor
  · cases op with
    | wheel mx my dy =>
        rw [step, handleWheel_zoomLevel]
        exact ⟨le_max_left _ _, max_le hmm (min_le_left _ _)⟩
    | zin =>
        rw [step, zoomIn_zoomLevel]
        refine ⟨le_min hmm ?_, min_le_left _ _⟩
        have : (0.1 : ℚ) ≤ s.zoomLevel := by simpa [minZoom] using h1
        norm_num [minZoom]; linarith
    | zout =>
        rw [step, zoomOut_zoomLevel]
        refine ⟨le_max_left _ _, max_le hmm ?_⟩
        have : s.zoomLevel ≤ (10 : ℚ) := by simpa [maxZoom] using h2
        norm_num [maxZoom]; linarith
    | reset =>
        exact ⟨by norm_num [step, resetZoom, minZoom], by norm_num [step, resetZoom, maxZoom]⟩
    | drag dx dy =>
        exact ⟨h1, h2⟩
  · intro mx my dy
    constructor
    · intro hbig
      rw [handleWheel_zoomLevel, min_eq_left (le_of_lt hbig),
        max_eq_right hmm]
    · intro hsmall
      rw [handleWheel_zoomLevel, min_eq_right (le_trans (le_of_lt hsmall) hmm),
        max_eq_left (le_of_lt hsmall)]

/-- C8 witness: the bound holds at a concrete state and operation. -/
theorem zoomLevel_bounded_witness :
    minZoom ≤ (⟨1, 0, 0⟩ : ViewState).zoomLevel ∧
    (⟨1, 0, 0⟩ : ViewState).zoomLevel ≤ maxZoom ∧
    ((minZoom ≤ (step 800 600 .zin ⟨1, 0, 0⟩).zoomLevel ∧
      (step 800 600 .zin ⟨1, 0, 0⟩).zoomLevel ≤ maxZoom) ∧
     (∀ mx my dy,
       (maxZoom < (⟨1, 0, 0⟩ : ViewState).zoomLevel * wheelFactor dy →
         (handleWheel ⟨1, 0, 0⟩ mx my dy).zoomLevel = maxZoom) ∧
       ((⟨1, 0, 0⟩ : ViewState).zoomLevel * wheelFactor dy < minZoom →
         (handleWheel ⟨1, 0, 0⟩ mx my dy).zoomLevel = minZoom))) :=
  ⟨by norm_num [minZoom], by norm_num [maxZoom],
    zoomLevel_bounded 800 600 ⟨1, 0, 0⟩ .zin (by norm_num [minZoom]) (by norm_num [maxZoom])⟩

/-- C2. For a wheel-zoom at anchor `(mx, my)`, the pan offset is recomputed
in each coordinate as `newPan = anchor - (anchor - oldPan) * (newZoom/oldZoom)`,
and consequently the model point that mapped to the anchor before the zoom
step maps to the anchor after it (exactly, in the rational model). -/
theorem handleWheel_anchor_fixed (s : ViewState) (mx my dy : ℚ)
    (hz : 0 < s.zoomLevel) :
    (handleWheel s mx my dy).panX
        = mx - (mx - s.panX) * ((handleWheel s mx my dy).zoomLevel / s.zoomLevel) ∧
    (handleWheel s mx my dy).panY
        = my - (my - s.panY) * ((handleWheel s mx my dy).zoomLevel / s.zoomLevel) ∧
    (∀ p, surfaceOfModel s.zoomLevel s.panX p = mx →
        surfaceOfModel (handleWheel s mx my dy).zoomLevel (handleWheel s mx my dy).panX p = mx) ∧
    (∀ p, surfaceOfModel s.zoomLevel s.panY p = my →
        surfaceOfModel (handleWheel s mx my dy).zoomLevel (handleWheel s mx my dy).panY p = my) := by
  have hz' : s.zoomLevel ≠ 0 := ne_of_gt hz
  refine ⟨handleWheel_panX s mx my dy, handleWheel_panY s mx my dy, ?_, ?_⟩
  · intro p hp
    rw [surfaceOfModel] at hp
    rw [surfaceOfModel, handleWheel_panX, handleWheel_zoomLevel]
    have hpx : s.panX = mx - s.zoomLevel * p := by linarith
    rw [hpx]
    field_simp
    ring
  · intro p hp
    rw [surfaceOfModel] at hp
    rw [surfaceOfModel, handleWheel_panY, handleWheel_zoomLevel]
    have hpy : s.panY = my - s.zoomLevel * p := by linarith
    rw [hpy]
    field_simp
    ring

/-- C2 witness: the anchor property at a concrete state and wheel event. -/
theorem handleWheel_anchor_fixed_witness :
    (0 : ℚ) < (⟨2, 3, 4⟩ : ViewState).zoomLevel ∧
    ((handleWheel ⟨2, 3, 4⟩ 10 20 (-1)).panX
        = 10 - (10 - (⟨2, 3, 4⟩ : ViewState).panX)
            * ((handleWheel ⟨2, 3, 4⟩ 10 20 (-1)).zoomLevel / (⟨2, 3, 4⟩ : ViewState).zoomLevel) ∧
     (handleWheel ⟨2, 3, 4⟩ 10 20 (-1)).panY
        = 20 - (20 - (⟨2, 3, 4⟩ : ViewState).panY)
            * ((handleWheel ⟨2, 3, 4⟩ 10 20 (-1)).zoomLevel / (⟨2, 3, 4⟩ : ViewState).zoomLevel) ∧
     (∀ p, surfaceOfModel (⟨2, 3, 4⟩ : ViewState).zoomLevel (⟨2, 3, 4⟩ : ViewState).panX p = 10 →
        surfaceOfModel (handleWheel ⟨2, 3, 4⟩ 10 20 (-1)).zoomLevel
          (handleWheel ⟨2, 3, 4⟩ 10 20 (-1)).panX p = 10) ∧
     (∀ p, surfaceOfModel (⟨2, 3, 4⟩ : ViewState).zoomLevel (⟨2, 3, 4⟩ : ViewState).panY p = 20 →
        surfaceOfModel (handleWheel ⟨2, 3, 4⟩ 10 20 (-1)).zoomLevel
          (handleWheel ⟨2, 3, 4⟩ 10 20 (-1)).panY p = 20)) :=
  ⟨by norm_num, handleWheel_anchor_fixed ⟨2, 3, 4⟩ 10 20 (-1) (by norm_num)⟩

/-- C10 counterexample: the state with `zoomLevel = 10` is reachable (thirteen
zoom-in clicks from the initial state), and from it the sequence zoom-in,
zoom-in, zoom-out, zoom-out ends at `zoomLevel = 125/18 ≈ 6.94`, more than 3
below the original 10 — not within any floating-point tolerance. -/
theorem zoomIn_zoomOut_counterexample :
    (applyOps 800 600 (List.replicate 13 .zin) initView).zoomLevel = 10 ∧
    (applyOps 800 600 [.zin, .zin, .zout, .zout]
        (applyOps 800 600 (List.replicate 13 .zin) initView)).zoomLevel = 125 / 18 ∧
    (10 : ℚ) - 125 / 18 = 55 / 18 ∧ (3 : ℚ) < 55 / 18 := by
  have h13 : applyOps 800 600 (List.replicate 13 .zin) initView
      = ⟨10, -3600, -2700⟩ := by
    norm_num [applyOps, step, zoomIn, initView, minZoom, maxZoom, min_def, max_def,
      List.replicate, List.foldl_cons, List.foldl_nil]
  refine ⟨by rw [h13], ?_, by norm_num, by norm_num⟩
  rw [h13]
  norm_num [applyOps, step, zoomIn, zoomOut, minZoom, maxZoom, min_def, max_def,
    List.foldl_cons, List.foldl_nil]

/-- C10 (amended). From every view state whose zoom level is at least
`minZoom` and small enough that two zoom-in steps do not clamp at `maxZoom`
(`zoomLevel * 1.2² ≤ maxZoom`), zoom-in twice then zoom-out twice returns
`zoomLevel` exactly to its original value; when clamping engages the value is
not restored (see the counterexample). -/
theorem zoomIn_zoomOut_roundtrip (canvasW canvasH : ℚ) (s : ViewState)
    (h1 : minZoom ≤ s.zoomLevel) (h2 : s.zoomLevel * (1.2 * 1.2) ≤ maxZoom) :
    (applyOps canvasW canvasH [.zin, .zin, .zout, .zout] s).zoomLevel = s.zoomLevel := by
  have h1' : (0.1 : ℚ) ≤ s.zoomLevel := by simpa [minZoom] using h1
  have h2' : s.zoomLevel * (1.2 * 1.2) ≤ (10 : ℚ) := by simpa [maxZoom] using h2
  have e1 : (zoomIn canvasW canvasH s).zoomLevel = s.zoomLevel * 1.2 := by
    rw [zoomIn_zoomLevel]
    exact min_eq_right (by norm_num [maxZoom]; linarith)
  have e2 : (zoomIn canvasW canvasH (zoomIn canvasW canvasH s)).zoomLevel
      = s.zoomLevel * 1.2 * 1.2 := by
    rw [zoomIn_zoomLevel, e1]
    exact min_eq_right (by norm_num [maxZoom]; linarith)
  have e3 : (zoomOut canvasW canvasH
        (zoomIn canvasW canvasH (zoomIn canvasW canvasH s))).zoomLevel
      = s.zoomLevel * 1.2 := by
    rw [zoomOut_zoomLevel, e2,
      show s.zoomLevel * 1.2 * 1.2 / 1.2 = s.zoomLevel * 1.2 from by ring]
    exact max_eq_right (by norm_num [minZoom]; linarith)
  have e4 : (zoomOut canvasW canvasH (zoomOut canvasW canvasH
        (zoomIn canvasW canvasH (zoomIn canvasW canvasH s)))).zoomLevel
      = s.zoomLevel := by
    rw [zoomOut_zoomLevel, e3,
      show s.zoomLevel * 1.2 / 1.2 = s.zoomLevel from by ring]
    exact max_eq_right h1
  simpa only [applyOps, List.foldl_cons, List.foldl_nil, step] using e4

/-- C1. For every microstrip input with positive `traceWidth` and
`substrateHeight`, the estimator computes `w_h = traceWidth/substrateHeight`
and returns `Z0 = (60/√er)·ln(8/w_h + w_h/4)` when `w_h ≤ 1`, and
`Z0 = 120π/(√er·(w_h + 1.393 + 0.667·ln(w_h + 1.444)))` when `w_h > 1`; in
both branches `effEr = (er+1)/2 + ((er−1)/2)·(1 + 12/w_h)^(−0.5)`, from the
same unbranched `w_h`. -/
theorem microstrip_estimate (p : GeoParams)
    (htw : 0 < p.traceWidth) (hsh : 0 < p.substrateHeight) :
    (p.traceWidth / p.substrateHeight ≤ 1 →
      (updateEstimatedParams "microstrip" p).1
        = (60 / Real.sqrt p.substrateEr)
            * Real.log (8 / (p.traceWidth / p.substrateHeight)
                + (p.traceWidth / p.substrateHeight) / 4)) ∧
    (1 < p.traceWidth / p.substrateHeight →
      (updateEstimatedParams "microstrip" p).1
        = (120 * Real.pi) / (Real.sqrt p.substrateEr
            * (p.traceWidth / p.substrateHeight + 1.393
                + 0.667 * Real.log (p.traceWidth / p.substrateHeight + 1.444)))) ∧
    (updateEstimatedParams "microstrip" p).2
      = (p.substrateEr + 1) / 2 + ((p.substrateEr - 1) / 2)
          * (1 + 12 / (p.traceWidth / p.substrateHeight)) ^ (-(0.5 : ℝ)) := by
  refine ⟨?_, ?_, ?_⟩
  · intro hle
    simp only [updateEstimatedParams, String.reduceEq, reduceIte, if_true, if_false]
    rw [if_pos hle]
  · intro hlt
    simp only [updateEstimatedParams, String.reduceEq, reduceIte, if_true, if_false]
    rw [if_neg (not_le.mpr hlt)]
  · simp only [updateEstimatedParams, String.reduceEq, reduceIte, if_true, if_false]

/-- C1 witness: the microstrip formulas at traceWidth = 100 μm,
substrateHeight = 1600 μm, εr = 4.4. -/
theorem microstrip_estimate_witness :
    (0 : ℝ) < (⟨100, 35, 35, 20, 1600, 5000, 1000, 4.4, 0.02, 59600000⟩ : GeoParams).traceWidth ∧
    (0 : ℝ) < (⟨100, 35, 35, 20, 1600, 5000, 1000, 4.4, 0.02, 59600000⟩ : GeoParams).substrateHeight ∧
    (((⟨100, 35, 35, 20, 1600, 5000, 1000, 4.4, 0.02, 59600000⟩ : GeoParams).traceWidth
          / (⟨100, 35, 35, 20, 1600, 5000, 1000, 4.4, 0.02, 59600000⟩ : GeoParams).substrateHeight ≤ 1 →
        (updateEstimatedParams "microstrip"
            ⟨100, 35, 35, 20, 1600, 5000, 1000, 4.4, 0.02, 59600000⟩).1
          = (60 / Real.sqrt (⟨100, 35, 35, 20, 1600, 5000, 1000, 4.4, 0.02, 59600000⟩ : GeoParams).substrateEr)
              * Real.log (8 / ((⟨100, 35, 35, 20, 1600, 5000, 1000, 4.4, 0.02, 59600000⟩ : GeoParams).traceWidth
                    / (⟨100, 35, 35, 20, 1600, 5000, 1000, 4.4, 0.02, 59600000⟩ : GeoParams).substrateHeight)
                  + ((⟨100, 35, 35, 20, 1600, 5000, 1000, 4.4, 0.02, 59600000⟩ : GeoParams).traceWidth
                    / (⟨100, 35, 35, 20, 1600, 5000, 1000, 4.4, 0.02, 59600000⟩ : GeoParams).substrateHeight) / 4)) ∧
      (1 < (⟨100, 35, 35, 20, 1600, 5000, 1000, 4.4, 0.02, 59600000⟩ : GeoParams).traceWidth
            / (⟨100, 35, 35, 20, 1600, 5000, 1000, 4.4, 0.02, 59600000⟩ : GeoParams).substrateHeight →
        (updateEstimatedParams "microstrip"
            ⟨100, 35, 35, 20, 1600, 5000, 1000, 4.4, 0.02, 59600000⟩).1
          = (120 * Real.pi) / (Real.sqrt (⟨100, 35, 35, 20, 1600, 5000, 1000, 4.4, 0.02, 59600000⟩ : GeoParams).substrateEr
              * ((⟨100, 35, 35, 20, 1600, 5000, 1000, 4.4, 0.02, 59600000⟩ : GeoParams).traceWidth
                    / (⟨100, 35, 35, 20, 1600, 5000, 1000, 4.4, 0.02, 59600000⟩ : GeoParams).substrateHeight + 1.393
                  + 0.667 * Real.log ((⟨100, 35, 35, 20, 1600, 5000, 1000, 4.4, 0.02, 59600000⟩ : GeoParams).traceWidth
                    / (⟨100, 35, 35, 20, 1600, 5000, 1000, 4.4, 0.02, 59600000⟩ : GeoParams).substrateHeight + 1.444)))) ∧
      (updateEstimatedParams "microstrip"
          ⟨100, 35, 35, 20, 1600, 5000, 1000, 4.4, 0.02, 59600000⟩).2
        = ((⟨100, 35, 35, 20, 1600, 5000, 1000, 4.4, 0.02, 59600000⟩ : GeoParams).substrateEr + 1) / 2
            + (((⟨100, 35, 35, 20, 1600, 5000, 1000, 4.4, 0.02, 59600000⟩ : GeoParams).substrateEr - 1) / 2)
              * (1 + 12 / ((⟨100, 35, 35, 20, 1600, 5000, 1000, 4.4, 0.02, 59600000⟩ : GeoParams).traceWidth
                  / (⟨100, 35, 35, 20, 1600, 5000, 1000, 4.4, 0.02, 59600000⟩ : GeoParams).substrateHeight)) ^ (-(0.5 : ℝ))) :=
  ⟨by norm_num, by norm_num,
    microstrip_estimate ⟨100, 35, 35, 20, 1600, 5000, 1000, 4.4, 0.02, 59600000⟩
      (by norm_num) (by norm_num)⟩

/-- C6. For every stripline input with positive `traceWidth` and
`substrateHeight`, the estimator computes `w_h = traceWidth/substrateHeight`
and returns `Z0 = (60/√er)·ln(4/w_h)` when `w_h ≤ 0.35`, and
`Z0 = (94.15/√er)/(w_h + 2.7)` otherwise, and returns `effEr = er` exactly
in both branches. -/
theorem stripline_estimate (p : GeoParams)
    (htw : 0 < p.traceWidth) (hsh : 0 < p.substrateHeight) :
    (p.traceWidth / p.substrateHeight ≤ 0.35 →
      (updateEstimatedParams "stripline" p).1
        = (60 / Real.sqrt p.substrateEr)
            * Real.log (4 / (p.traceWidth / p.substrateHeight))) ∧
    (0.35 < p.traceWidth / p.substrateHeight →
      (updateEstimatedParams "stripline" p).1
        = (94.15 / Real.sqrt p.substrateEr)
            / (p.traceWidth / p.substrateHeight + 2.7)) ∧
    (updateEstimatedParams "stripline" p).2 = p.substrateEr := by
  refine ⟨?_, ?_, ?_⟩
  · intro hle
    simp only [updateEstimatedParams, String.reduceEq, reduceIte, if_true, if_false]
    rw [if_pos hle]
  · intro hlt
    simp only [updateEstimatedParams, String.reduceEq, reduceIte, if_true, if_false]
    rw [if_neg (not_le.mpr hlt)]
  · simp only [updateEstimatedParams, String.reduceEq, reduceIte, if_true, if_false]

/-- C6 witness: the stripline formulas at traceWidth = 100 μm,
substrateHeight = 1600 μm, εr = 4.4. -/
theorem stripline_estimate_witness :
    (0 : ℝ) < (⟨100, 35, 35, 20, 1600, 5000, 1000, 4.4, 0.02, 59600000⟩ : GeoParams).traceWidth ∧
    (0 : ℝ) < (⟨100, 35, 35, 20, 1600, 5000, 1000, 4.4, 0.02, 59600000⟩ : GeoParams).substrateHeight ∧
    (((⟨100, 35, 35, 20, 1600, 5000, 1000, 4.4, 0.02, 59600000⟩ : GeoParams).traceWidth
          / (⟨100, 35, 35, 20, 1600, 5000, 1000, 4.4, 0.02, 59600000⟩ : GeoParams).substrateHeight ≤ 0.35 →
        (updateEstimatedParams "stripline"
            ⟨100, 35, 35, 20, 1600, 5000, 1000, 4.4, 0.02, 59600000⟩).1
          = (60 / Real.sqrt (⟨100, 35, 35, 20, 1600, 5000, 1000, 4.4, 0.02, 59600000⟩ : GeoParams).substrateEr)
              * Real.log (4 / ((⟨100, 35, 35, 20, 1600, 5000, 1000, 4.4, 0.02, 59600000⟩ : GeoParams).traceWidth
                  / (⟨100, 35, 35, 20, 1600, 5000, 1000, 4.4, 0.02, 59600000⟩ : GeoParams).substrateHeight))) ∧
      (0.35 < (⟨100, 35, 35, 20, 1600, 5000, 1000, 4.4, 0.02, 59600000⟩ : GeoParams).traceWidth
            / (⟨100, 35, 35, 20, 1600, 5000, 1000, 4.4, 0.02, 59600000⟩ : GeoParams).substrateHeight →
        (updateEstimatedParams "stripline"
            ⟨100, 35, 35, 20, 1600, 5000, 1000, 4.4, 0.02, 59600000⟩).1
          = (94.15 / Real.sqrt (⟨100, 35, 35, 20, 1600, 5000, 1000, 4.4, 0.02, 59600000⟩ : GeoParams).substrateEr)
              / ((⟨100, 35, 35, 20, 1600, 5000, 1000, 4.4, 0.02, 59600000⟩ : GeoParams).traceWidth
                  / (⟨100, 35, 35, 20, 1600, 5000, 1000, 4.4, 0.02, 59600000⟩ : GeoParams).substrateHeight + 2.7)) ∧
      (updateEstimatedParams "stripline"
          ⟨100, 35, 35, 20, 1600, 5000, 1000, 4.4, 0.02, 59600000⟩).2
        = (⟨100, 35, 35, 20, 1600, 5000, 1000, 4.4, 0.02, 59600000⟩ : GeoParams).substrateEr) :=
  ⟨by norm_num, by norm_num,
    stripline_estimate ⟨100, 35, 35, 20, 1600, 5000, 1000, 4.4, 0.02, 59600000⟩
      (by norm_num) (by norm_num)⟩

/-- C5. For every parameter set, the coplanar, coplanar-with-ground, and
grounded-coplanar estimator branches return `Z0` exactly 50, 45 and 40 Ω
and `effEr` exactly `(er+1)/2`, `(er+1)/2 + 0.1`, `(er+1)/2 + 0.2`
respectively — closed forms mentioning only `substrateEr`, hence with no
dependence on any dimension field. -/
theorem coplanar_estimates (p : GeoParams)
    (htw : 0 < p.traceWidth) (hth : 0 < p.traceHeight)
    (hgt : 0 < p.groundThickness) (hgap : 0 < p.coplanarGap)
    (hsh : 0 < p.substrateHeight) (hsw : 0 < p.substrateWidth)
    (hah : 0 < p.airHeight) :
    updateEstimatedParams "coplanar" p = (50, (p.substrateEr + 1) / 2) ∧
    updateEstimatedParams "coplanar-with-ground" p
      = (45, (p.substrateEr + 1) / 2 + 0.1) ∧
    updateEstimatedParams "grounded-coplanar" p
      = (40, (p.substrateEr + 1) / 2 + 0.2) := by
  refine ⟨?_, ?_, ?_⟩ <;> simp [updateEstimatedParams]

/-- C5 witness: the fixed-constant branches at a concrete parameter set. -/
theorem coplanar_estimates_witness :
    (0 : ℝ) < 100 ∧
    (updateEstimatedParams "coplanar"
        ⟨100, 35, 35, 20, 1600, 5000, 1000, 4.4, 0.02, 59600000⟩
      = (50, ((⟨100, 35, 35, 20, 1600, 5000, 1000, 4.4, 0.02, 59600000⟩ : GeoParams).substrateEr + 1) / 2) ∧
     updateEstimatedParams "coplanar-with-ground"
        ⟨100, 35, 35, 20, 1600, 5000, 1000, 4.4, 0.02, 59600000⟩
      = (45, ((⟨100, 35, 35, 20, 1600, 5000, 1000, 4.4, 0.02, 59600000⟩ : GeoParams).substrateEr + 1) / 2 + 0.1) ∧
     updateEstimatedParams "grounded-coplanar"
        ⟨100, 35, 35, 20, 1600, 5000, 1000, 4.4, 0.02, 59600000⟩
      = (40, ((⟨100, 35, 35, 20, 1600, 5000, 1000, 4.4, 0.02, 59600000⟩ : GeoParams).substrateEr + 1) / 2 + 0.2)) :=
  ⟨by norm_num,
    coplanar_estimates ⟨100, 35, 35, 20, 1600, 5000, 1000, 4.4, 0.02, 59600000⟩
      (by norm_num) (by norm_num) (by norm_num) (by norm_num)
      (by norm_num) (by norm_num) (by norm_num)⟩

/-- C7. The estimator is a total function of the topology string: any value
outside the five recognized ones — including "custom" — takes the final else
branch and returns `Z0 = 50` and `effEr = er` directly; no topology value can
fail. -/
theorem estimate_default_branch (t : String) (p : GeoParams)
    (h1 : t ≠ "microstrip") (h2 : t ≠ "stripline") (h3 : t ≠ "coplanar")
    (h4 : t ≠ "coplanar-with-ground") (h5 : t ≠ "grounded-coplanar") :
    updateEstimatedParams t p = (50, p.substrateEr) := by
  simp only [updateEstimatedParams, if_neg h1, if_neg h2, if_neg h3, if_neg h4, if_neg h5]

/-- C7 witness: the topology "custom" falls through to the default branch. -/
theorem estimate_default_branch_witness :
    ("custom" : String) ≠ "microstrip" ∧
    updateEstimatedParams "custom"
        ⟨100, 35, 35, 20, 1600, 5000, 1000, 4.4, 0.02, 59600000⟩
      = (50, (⟨100, 35, 35, 20, 1600, 5000, 1000, 4.4, 0.02, 59600000⟩ : GeoParams).substrateEr) :=
  ⟨by decide,
    estimate_default_branch "custom" ⟨100, 35, 35, 20, 1600, 5000, 1000, 4.4, 0.02, 59600000⟩
      (by decide) (by decide) (by decide) (by decide) (by decide)⟩

/-- C3. For every topology and every dimension set of positive dimensions,
the substrate region, the air region, and every bottom-ground region share
the substrate's horizontal extent: the same left edge
`canvasW/2 − substrateWidth·scale/2` and the same width
`substrateWidth·scale`. -/
theorem layers_share_horizontal_extent (lineType : String) (d : GeoDims)
    (canvasW canvasH : ℚ)
    (htw : 0 < d.traceWidth) (hth : 0 < d.traceHeight)
    (hgt : 0 < d.groundThickness) (hgap : 0 < d.coplanarGap)
    (hsh : 0 < d.substrateHeight) (hsw : 0 < d.substrateWidth)
    (hah : 0 < d.airHeight) :
    ∀ r ∈ drawGeometry lineType d canvasW canvasH,
      (r.role = Role.substrate ∨ r.role = Role.air ∨ r.role = Role.bottomGround) →
      r.leftEdge = canvasW / 2 - d.substrateWidth * scale / 2 ∧
      r.width = d.substrateWidth * scale := by
  intro r hr hrole
  simp only [drawGeometry] at hr
  rcases List.mem_append.mp hr with h | h
  · simp only [List.mem_cons, List.not_mem_nil, or_false] at h
    rcases h with rfl | rfl
    · exact ⟨rfl, rfl⟩
    · exact ⟨rfl, rfl⟩
  · simp only [drawTrace] at h
    split_ifs at h
    · -- microstrip
      simp only [List.mem_cons, List.not_mem_nil, or_false] at h
      rcases h with rfl | rfl
      · simp [Region.role] at hrole
      · exact ⟨rfl, rfl⟩
    · -- stripline
      simp only [List.mem_cons, List.not_mem_nil, or_false] at h
      rcases h with rfl | rfl | rfl
      · simp [Region.role] at hrole
      · exact ⟨rfl, rfl⟩
      · simp [Region.role] at hrole
    · -- coplanar
      simp only [List.mem_cons, List.not_mem_nil, or_false] at h
      rcases h with rfl | rfl | rfl <;> simp [Region.role] at hrole
    · -- coplanar-with-ground
      simp only [List.mem_cons, List.not_mem_nil, or_false] at h
      rcases h with rfl | rfl | rfl | rfl
      · simp [Region.role] at hrole
      · simp [Region.role] at hrole
      · simp [Region.role] at hrole
      · exact ⟨rfl, rfl⟩
    · -- grounded-coplanar
      rcases List.mem_append.mp h with h' | h'
      · rcases List.mem_append.mp h' with h2 | h2
        · simp only [List.mem_cons, List.not_mem_nil, or_false] at h2
          rcases h2 with rfl | rfl | rfl | rfl
          · simp [Region.role] at hrole
          · simp [Region.role] at hrole
          · simp [Region.role] at hrole
          · exact ⟨rfl, rfl⟩
        · obtain ⟨yc, hyc, rfl⟩ := List.mem_map.mp h2
          simp [Region.role] at hrole
      · obtain ⟨yc, hyc, rfl⟩ := List.mem_map.mp h'
        simp [Region.role] at hrole
    · -- custom
      simp only [List.mem_cons, List.not_mem_nil, or_false] at h
      rcases h with rfl
      simp [Region.role] at hrole
    · -- unrecognized topology draws no trace regions
      simp at h

/-- C3 witness: the shared horizontal extent at a concrete stripline input
(a topology with a bottom ground). -/
theorem layers_share_horizontal_extent_witness :
    (0 : ℚ) < (⟨20, 20, 20, 20, 100, 400, 40⟩ : GeoDims).traceWidth ∧
    (0 : ℚ) < (⟨20, 20, 20, 20, 100, 400, 40⟩ : GeoDims).substrateWidth ∧
    (∀ r ∈ drawGeometry "stripline" ⟨20, 20, 20, 20, 100, 400, 40⟩ 800 600,
      (r.role = Role.substrate ∨ r.role = Role.air ∨ r.role = Role.bottomGround) →
      r.leftEdge = 800 / 2 - (⟨20, 20, 20, 20, 100, 400, 40⟩ : GeoDims).substrateWidth * scale / 2 ∧
      r.width = (⟨20, 20, 20, 20, 100, 400, 40⟩ : GeoDims).substrateWidth * scale) :=
  ⟨by norm_num, by norm_num,
    layers_share_horizontal_extent "stripline" ⟨20, 20, 20, 20, 100, 400, 40⟩ 800 600
      (by norm_num) (by norm_num) (by norm_num) (by norm_num)
      (by norm_num) (by norm_num) (by norm_num)⟩

lemma viaLoop_eval_500_550 : viaLoop 500 550 = [500, 540] := by
  rw [viaLoop]
  norm_num [viaRadius, viaSpacing]
  rw [viaLoop]
  norm_num [viaRadius, viaSpacing]
  rw [viaLoop]
  norm_num

/-- C4 counterexample: at trace 20×20 μm, gap 20 μm, substrate 400×100 μm on
an 800×600 canvas, the left side-ground strip is the rectangle
(335, 490, 50, 10), so its bottom edge is at y = 500, and a via is placed
with center (360, 500) and radius 3: its top edge 500 − 3 = 497 lies strictly
above the side-ground bottom, i.e. the placed via extends outside the
vertical span between the side-ground bottom and the substrate bottom. -/
theorem via_outside_span_counterexample :
    Region.rect Role.sideGround 335 490 50 10
        ∈ drawGeometry "grounded-coplanar" ⟨20, 20, 20, 20, 100, 400, 40⟩ 800 600 ∧
    Region.circle Role.via 360 500 viaRadius
        ∈ drawGeometry "grounded-coplanar" ⟨20, 20, 20, 20, 100, 400, 40⟩ 800 600 ∧
    (500 : ℚ) - viaRadius < 490 + 10 := by
  refine ⟨?_, ?_, by norm_num [viaRadius]⟩ <;>
    (norm_num [drawGeometry, drawTrace, scale, offsetY, viaLoop_eval_500_550,
       List.mem_append, List.mem_cons, List.mem_map]
     simp [String.reduceEq])

/-- C4 (amended). In the grounded-coplanar layout every via marker is a
circle of the fixed radius 3 whose center lies on one of the two side
columns, on the evenly spaced 40-pixel grid starting at the bottom of the
side ground strips; a via is placed exactly when its bottom edge
(center + radius) does not pass below the substrate bottom. The first via is
centered at the side-ground bottom itself, so its upper half extends above
that edge (the original claim's no-overhang reading fails there, see the
counterexample). -/
theorem grounded_coplanar_via_placement (d : GeoDims) (canvasW canvasH : ℚ)
    (htw : 0 < d.traceWidth) (hth : 0 < d.traceHeight)
    (hgt : 0 < d.groundThickness) (hgap : 0 < d.coplanarGap)
    (hsh : 0 < d.substrateHeight) (hsw : 0 < d.substrateWidth)
    (hah : 0 < d.airHeight) :
    (∀ r ∈ drawGeometry "grounded-coplanar" d canvasW canvasH,
      r.role = Role.via →
      ∃ cx cy, r = Region.circle Role.via cx cy viaRadius ∧
        (cx = canvasW / 2 - d.traceWidth * scale / 2 - d.coplanarGap * scale - 50 / 2 ∨
         cx = canvasW / 2 - d.traceWidth * scale / 2 + d.traceWidth * scale
                + d.coplanarGap * scale + 50 / 2) ∧
        (∃ k : ℕ, cy = canvasH - offsetY - d.substrateHeight * scale + viaSpacing * k) ∧
        cy + viaRadius ≤ canvasH - offsetY) ∧
    (∀ k : ℕ,
      canvasH - offsetY - d.substrateHeight * scale + viaSpacing * k + viaRadius
          ≤ canvasH - offsetY →
      Region.circle Role.via
          (canvasW / 2 - d.traceWidth * scale / 2 - d.coplanarGap * scale - 50 / 2)
          (canvasH - offsetY - d.substrateHeight * scale + viaSpacing * k) viaRadius
        ∈ drawGeometry "grounded-coplanar" d canvasW canvasH ∧
      Region.circle Role.via
          (canvasW / 2 - d.traceWidth * scale / 2 + d.traceWidth * scale
            + d.coplanarGap * scale + 50 / 2)
          (canvasH - offsetY - d.substrateHeight * scale + viaSpacing * k) viaRadius
        ∈ drawGeometry "grounded-coplanar" d canvasW canvasH) := by
  constructor
  · intro r hr hrole
    simp only [drawGeometry, drawTrace, String.reduceEq, reduceIte, if_true, if_false] at hr
    rcases List.mem_append.mp hr with h | h
    · simp only [List.mem_cons, List.not_mem_nil, or_false] at h
      rcases h with rfl | rfl <;> simp [Region.role] at hrole
    · rcases List.mem_append.mp h with h' | h'
      · rcases List.mem_append.mp h' with h2 | h2
        · simp only [List.mem_cons, List.not_mem_nil, or_false] at h2
          rcases h2 with rfl | rfl | rfl | rfl <;> simp [Region.role] at hrole
        · obtain ⟨cy, hcy, rfl⟩ := List.mem_map.mp h2
          obtain ⟨⟨k, hk⟩, hb⟩ := viaLoop_sound _ _ cy hcy
          refine ⟨_, cy, rfl, Or.inl (by ring), ⟨k, by rw [hk]; ring⟩, by linarith [hb]⟩
      · obtain ⟨cy, hcy, rfl⟩ := List.mem_map.mp h'
        obtain ⟨⟨k, hk⟩, hb⟩ := viaLoop_sound _ _ cy hcy
        refine ⟨_, cy, rfl, Or.inr (by ring), ⟨k, by rw [hk]; ring⟩, by linarith [hb]⟩
  · intro k hk
    have hmem := viaLoop_complete
      (canvasH - offsetY - d.substrateHeight * scale - d.traceHeight * scale
        + d.traceHeight * scale)
      (canvasH - offsetY - d.substrateHeight * scale + d.substrateHeight * scale)
      k (by linarith)
    constructor
    · simp only [drawGeometry, drawTrace, String.reduceEq, reduceIte, if_true, if_false]
      refine List.mem_append.mpr (Or.inr ?_)
      refine List.mem_append.mpr (Or.inl (List.mem_append.mpr (Or.inr ?_)))
      rw [show canvasH - offsetY - d.substrateHeight * scale + viaSpacing * (k : ℚ)
          = canvasH - offsetY - d.substrateHeight * scale - d.traceHeight * scale
              + d.traceHeight * scale + viaSpacing * (k : ℚ) from by ring]
      exact List.mem_map_of_mem _ hmem
    · simp only [drawGeometry, drawTrace, String.reduceEq, reduceIte, if_true, if_false]
      refine List.mem_append.mpr (Or.inr ?_)
      refine List.mem_append.mpr (Or.inr ?_)
      rw [show canvasH - offsetY - d.substrateHeight * scale + viaSpacing * (k : ℚ)
          = canvasH - offsetY - d.substrateHeight * scale - d.traceHeight * scale
              + d.traceHeight * scale + viaSpacing * (k : ℚ) from by ring]
      exact List.mem_map_of_mem _ hmem

/-- C4 witness: the amended via-placement property at a concrete input. -/
theorem grounded_coplanar_via_placement_witness :
    (0 : ℚ) < (⟨20, 20, 20, 20, 100, 400, 40⟩ : GeoDims).traceWidth ∧
    ((∀ r ∈ drawGeometry "grounded-coplanar" ⟨20, 20, 20, 20, 100, 400, 40⟩ 800 600,
      r.role = Role.via →
      ∃ cx cy, r = Region.circle Role.via cx cy viaRadius ∧
        (cx = 800 / 2 - (⟨20, 20, 20, 20, 100, 400, 40⟩ : GeoDims).traceWidth * scale / 2
                - (⟨20, 20, 20, 20, 100, 400, 40⟩ : GeoDims).coplanarGap * scale - 50 / 2 ∨
         cx = 800 / 2 - (⟨20, 20, 20, 20, 100, 400, 40⟩ : GeoDims).traceWidth * scale / 2
                + (⟨20, 20, 20, 20, 100, 400, 40⟩ : GeoDims).traceWidth * scale
                + (⟨20, 20, 20, 20, 100, 400, 40⟩ : GeoDims).coplanarGap * scale + 50 / 2) ∧
        (∃ k : ℕ, cy = 600 - offsetY
            - (⟨20, 20, 20, 20, 100, 400, 40⟩ : GeoDims).substrateHeight * scale
            + viaSpacing * k) ∧
        cy + viaRadius ≤ 600 - offsetY) ∧
    (∀ k : ℕ,
      600 - offsetY - (⟨20, 20, 20, 20, 100, 400, 40⟩ : GeoDims).substrateHeight * scale
          + viaSpacing * k + viaRadius ≤ 600 - offsetY →
      Region.circle Role.via
          (800 / 2 - (⟨20, 20, 20, 20, 100, 400, 40⟩ : GeoDims).traceWidth * scale / 2
            - (⟨20, 20, 20, 20, 100, 400, 40⟩ : GeoDims).coplanarGap * scale - 50 / 2)
          (600 - offsetY - (⟨20, 20, 20, 20, 100, 400, 40⟩ : GeoDims).substrateHeight * scale
            + viaSpacing * k) viaRadius
        ∈ drawGeometry "grounded-coplanar" ⟨20, 20, 20, 20, 100, 400, 40⟩ 800 600 ∧
      Region.circle Role.via
          (800 / 2 - (⟨20, 20, 20, 20, 100, 400, 40⟩ : GeoDims).traceWidth * scale / 2
            + (⟨20, 20, 20, 20, 100, 400, 40⟩ : GeoDims).traceWidth * scale
            + (⟨20, 20, 20, 20, 100, 400, 40⟩ : GeoDims).coplanarGap * scale + 50 / 2)
          (600 - offsetY - (⟨20, 20, 20, 20, 100, 400, 40⟩ : GeoDims).substrateHeight * scale
            + viaSpacing * k) viaRadius
        ∈ drawGeometry "grounded-coplanar" ⟨20, 20, 20, 20, 100, 400, 40⟩ 800 600)) :=
  ⟨by norm_num,
    grounded_coplanar_via_placement ⟨20, 20, 20, 20, 100, 400, 40⟩ 800 600
      (by norm_num) (by norm_num) (by norm_num) (by norm_num)
      (by norm_num) (by norm_num) (by norm_num)⟩

/-- C10 witness: the round trip at a concrete in-range state. -/
theorem zoomIn_zoomOut_roundtrip_witness :
    minZoom ≤ (⟨1, 0, 0⟩ : ViewState).zoomLevel ∧
    (⟨1, 0, 0⟩ : ViewState).zoomLevel * (1.2 * 1.2) ≤ maxZoom ∧
    (applyOps 800 600 [.zin, .zin, .zout, .zout] ⟨1, 0, 0⟩).zoomLevel
      = (⟨1, 0, 0⟩ : ViewState).zoomLevel :=
  ⟨by norm_num [minZoom], by norm_num [maxZoom],
    zoomIn_zoomOut_roundtrip 800 600 ⟨1, 0, 0⟩ (by norm_num [minZoom]) (by norm_num [maxZoom])⟩

end TLGeometry
